import Mathlib

/-
Verification development for the state.js hierarchical state machine engine.

The model graph of src/src/state.ts (StateMachine, Region, Vertex, State,
PseudoState, Transition) is embedded arena-style: every Region, Vertex and
Transition object allocated by a constructor becomes a slot in a list held by
the Model record, and object references become Nat indices into those lists.
JavaScript reference identity corresponds to index equality, since every
constructor call allocates a fresh slot. Caller-supplied callbacks (Behavior,
Action, user Guard functions) are opaque values identified by Nat tokens; an
environment function gives a token its semantics where a claim needs to run
one. The builder methods mutate the object graph in place in the source; here
each becomes a function from Model to Model (returning the id of the fresh
object where the source returns it).
-/

namespace StateJS

/-- The PseudoStateKind enum of state.ts. -/
inductive PseudoStateKind where
  | Choice
  | DeepHistory
  | Initial
  | Junction
  | ShallowHistory
deriving DecidableEq, Repr

/-- The TransitionKind enum of state.ts. -/
inductive TransitionKind where
  | External
  | Internal
  | Local
deriving DecidableEq, Repr

/-- Messages are arbitrary JavaScript values; the default State guard compares
a message against the source vertex with reference identity, so the embedding
distinguishes messages that are references to a model vertex (by arena id)
from any other payload (an opaque token). -/
inductive Message where
  | vertexMsg (id : Nat)
  | dataMsg (n : Nat)
deriving DecidableEq, Repr

/-- The guard field of a Transition. The two default guards installed by the
Transition constructor and the guard installed by the else method are concrete
closures in the source and are embedded as symbolic forms with their exact
semantics; a guard installed by the when method is caller-supplied code,
identified by a token. -/
inductive GuardRep where
  | defaultPseudo
  | defaultState (src : Nat)
  | elseGuard
  | userGuard (code : Nat)
deriving DecidableEq, Repr

/-- Evaluation of a guard at a message and an instance token. The source
closure comparing message with this.source is true exactly on the message
that is a reference to the source vertex. User guards take their meaning
from the environment env. -/
def GuardRep.eval (env : Nat → Message → Nat → Bool) : GuardRep → Message → Nat → Bool
  | GuardRep.defaultPseudo, _, _ => true
  | GuardRep.defaultState src, msg, _ =>
      match msg with
      | Message.vertexMsg i => i == src
      | Message.dataMsg _ => false
  | GuardRep.elseGuard, _, _ => false
  | GuardRep.userGuard code, msg, inst => env code msg inst

/-- The parent of a Region: a State (by vertex arena id) or the StateMachine. -/
inductive RegionParent where
  | state (s : Nat)
  | machine
deriving DecidableEq, Repr

/-- The parent argument of the Vertex constructor: Region, State or
StateMachine. -/
inductive VertexParent where
  | region (r : Nat)
  | state (s : Nat)
  | machine
deriving DecidableEq, Repr

/-- Which subclass a vertex arena slot holds: plain Vertex, PseudoState (with
its kind) or State. -/
inductive VertexClass where
  | vertex
  | pseudoState (kind : PseudoStateKind)
  | state
deriving DecidableEq, Repr

/-- One Region object: name, parent, the qualifiedName computed by the
NamedElement constructor, and the vertices list filled by Vertex
constructors. -/
structure RegionData where
  name : String
  parent : RegionParent
  qualifiedName : String
  vertices : List Nat
deriving DecidableEq, Repr

/-- One Vertex object (covering the Vertex, PseudoState and State classes):
name, owning region, qualifiedName, subclass tag, the outgoing and incoming
transition lists, and the State fields regions, defaultRegion, entryBehavior
and exitBehavior (unused by the other subclasses). Behaviors are tokens. -/
structure VertexData where
  name : String
  parent : Nat
  qualifiedName : String
  cls : VertexClass
  outgoing : List Nat
  incoming : List Nat
  regions : List Nat
  defaultRegion : Option Nat
  entryBehavior : List Nat
  exitBehavior : List Nat
deriving DecidableEq, Repr

/-- One Transition object: source, optional target, kind, guard, and the
effectBehavior list of behavior tokens. -/
structure TransitionData where
  source : Nat
  target : Option Nat
  kind : TransitionKind
  guard : GuardRep
  effectBehavior : List Nat
deriving DecidableEq, Repr

/-- The whole object graph rooted at one StateMachine: the machine fields
(name, regions, defaultRegion, clean, onInitialise) plus the three arenas. -/
structure Model where
  machineName : String
  machineRegions : List Nat
  machineDefaultRegion : Option Nat
  clean : Bool
  onInitialise : List Nat
  regionArena : List RegionData
  vertexArena : List VertexData
  transArena : List TransitionData
deriving DecidableEq, Repr

/-- Placeholder for out of range region lookups. -/
def defaultRegionData : RegionData :=
  ⟨"", RegionParent.machine, "", []⟩

/-- Placeholder for out of range vertex lookups. -/
def defaultVertexData : VertexData :=
  ⟨"", 0, "", VertexClass.vertex, [], [], [], none, [], []⟩

/-- Placeholder for out of range transition lookups. -/
def defaultTransitionData : TransitionData :=
  ⟨0, none, TransitionKind.External, GuardRep.defaultPseudo, []⟩

/-- Dereference a region id. -/
def getRegion (m : Model) (r : Nat) : RegionData :=
  m.regionArena.getD r defaultRegionData

/-- Dereference a vertex id. -/
def getVertex (m : Model) (v : Nat) : VertexData :=
  m.vertexArena.getD v defaultVertexData

/-- Dereference a transition id. -/
def getTrans (m : Model) (t : Nat) : TransitionData :=
  m.transArena.getD t defaultTransitionData

/-- Mutate the region slot r in place. -/
def updateRegion (m : Model) (r : Nat) (f : RegionData → RegionData) : Model :=
  { m with regionArena := m.regionArena.set r (f (getRegion m r)) }

/-- Mutate the vertex slot v in place. -/
def updateVertex (m : Model) (v : Nat) (f : VertexData → VertexData) : Model :=
  { m with vertexArena := m.vertexArena.set v (f (getVertex m v)) }

/-- Mutate the transition slot t in place. -/
def updateTrans (m : Model) (t : Nat) (f : TransitionData → TransitionData) : Model :=
  { m with transArena := m.transArena.set t (f (getTrans m t)) }

/-- Does the vertex slot hold a PseudoState (the instanceof PseudoState test)? -/
def isPseudoState (m : Model) (v : Nat) : Bool :=
  match (getVertex m v).cls with
  | VertexClass.pseudoState _ => true
  | _ => false

/-- Does the vertex slot hold a State (the instanceof State test)? -/
def isStateVertex (m : Model) (v : Nat) : Bool :=
  match (getVertex m v).cls with
  | VertexClass.state => true
  | _ => false

/-- The toString of a possible region parent: qualifiedName for a State,
name for the StateMachine. -/
def parentToString (m : Model) : RegionParent → String
  | RegionParent.state s => (getVertex m s).qualifiedName
  | RegionParent.machine => m.machineName

/-- The StateMachine constructor: empty regions, no default region, clean
initialised to false, empty onInitialise. -/
def mkStateMachine (name : String) : Model :=
  ⟨name, [], none, false, [], [], [], []⟩

/-- The Region constructor: the NamedElement constructor computes
qualifiedName from the parent toString, then the region pushes itself onto
the parent regions list and clears the root clean flag. Returns the fresh
region id. -/
def newRegion (name : String) (parent : RegionParent) (m : Model) : Model × Nat :=
  let rid := m.regionArena.length
  let qn := parentToString m parent ++ "." ++ name
  let m1 := { m with regionArena := m.regionArena ++ [⟨name, parent, qn, []⟩] }
  let m2 :=
    match parent with
    | RegionParent.state s => updateVertex m1 s (fun v => { v with regions := v.regions ++ [rid] })
    | RegionParent.machine => { m1 with machineRegions := m1.machineRegions ++ [rid] }
  ({ m2 with clean := false }, rid)

/-- State getDefaultRegion: return the recorded default region, or on first
call construct a Region named default under this state and record it. -/
def State.getDefaultRegion (s : Nat) (m : Model) : Model × Nat :=
  match (getVertex m s).defaultRegion with
  | some r => (m, r)
  | none =>
      let (m1, r) := newRegion "default" (RegionParent.state s) m
      (updateVertex m1 s (fun v => { v with defaultRegion := some r }), r)

/-- StateMachine getDefaultRegion: same laziness at the root. -/
def StateMachine.getDefaultRegion (m : Model) : Model × Nat :=
  match m.machineDefaultRegion with
  | some r => (m, r)
  | none =>
      let (m1, r) := newRegion "default" RegionParent.machine m
      ({ m1 with machineDefaultRegion := some r }, r)

/-- The Vertex constructor (also run by the PseudoState and State
constructors via super): resolve the parent argument to a region, calling
getDefaultRegion when the parent is a State or the StateMachine; compute the
qualifiedName; push onto the region vertices list; clear the clean flag.
Returns the fresh vertex id. -/
def newVertex (name : String) (cls : VertexClass) (parent : VertexParent) (m : Model) : Model × Nat :=
  let resolved :=
    match parent with
    | VertexParent.region r => (m, r)
    | VertexParent.state s => State.getDefaultRegion s m
    | VertexParent.machine => StateMachine.getDefaultRegion m
  let m1 := resolved.1
  let rid := resolved.2
  let vid := m1.vertexArena.length
  let qn := (getRegion m1 rid).qualifiedName ++ "." ++ name
  let m2 := { m1 with vertexArena := m1.vertexArena ++ [⟨name, rid, qn, cls, [], [], [], none, [], []⟩] }
  let m3 := updateRegion m2 rid (fun r => { r with vertices := r.vertices ++ [vid] })
  ({ m3 with clean := false }, vid)

/-- The Transition constructor: install the default guard (always true for a
PseudoState source, message identity with the source otherwise), push onto
the source outgoing list, clear the clean flag; then either push onto the
target incoming list or, with no target, overwrite the kind with Internal.
Returns the fresh transition id. -/
def newTransition (source : Nat) (target : Option Nat) (kind : TransitionKind) (m : Model) : Model × Nat :=
  let tid := m.transArena.length
  let g := if isPseudoState m source then GuardRep.defaultPseudo else GuardRep.defaultState source
  let k := if target.isSome then kind else TransitionKind.Internal
  let m1 := { m with transArena := m.transArena ++ [⟨source, target, k, g, []⟩] }
  let m2 := updateVertex m1 source (fun v => { v with outgoing := v.outgoing ++ [tid] })
  let m3 := { m2 with clean := false }
  let m4 :=
    match target with
    | some t => updateVertex m3 t (fun v => { v with incoming := v.incoming ++ [tid] })
    | none => m3
  (m4, tid)

/-- State enter, exactly as written in the source: it pushes the action onto
exitBehavior (not entryBehavior) and clears the clean flag. -/
def State.enter (s : Nat) (action : Nat) (m : Model) : Model :=
  let m1 := updateVertex m s (fun v => { v with exitBehavior := v.exitBehavior ++ [action] })
  { m1 with clean := false }

/-- State exit: push the action onto exitBehavior and clear the clean flag. -/
def State.exit (s : Nat) (action : Nat) (m : Model) : Model :=
  let m1 := updateVertex m s (fun v => { v with exitBehavior := v.exitBehavior ++ [action] })
  { m1 with clean := false }

/-- Transition else: overwrite the guard with the always false closure; the
clean flag is left alone (the source notes no invalidation is needed). -/
def Transition.elseOp (t : Nat) (m : Model) : Model :=
  updateTrans m t (fun td => { td with guard := GuardRep.elseGuard })

/-- Transition when: overwrite the guard with the caller supplied guard; the
clean flag is left alone. -/
def Transition.when (t : Nat) (code : Nat) (m : Model) : Model :=
  updateTrans m t (fun td => { td with guard := GuardRep.userGuard code })

/-- Transition effect: push the action onto effectBehavior and clear the
clean flag. -/
def Transition.effect (t : Nat) (action : Nat) (m : Model) : Model :=
  let m1 := updateTrans m t (fun td => { td with effectBehavior := td.effectBehavior ++ [action] })
  { m1 with clean := false }

/-- The DictionaryInstance methods only read region.qualifiedName, so an
instance method argument is a record carrying that string. -/
structure RegionRef where
  qualifiedName : String
deriving DecidableEq, Repr

/-- The ref of a region of the model, as passed to an instance. -/
def Region.ref (m : Model) (r : Nat) : RegionRef :=
  ⟨(getRegion m r).qualifiedName⟩

/-- The DictionaryInstance class: a name and the activeStateConfiguration
object mapping region qualified names to State objects (vertex ids). The
JavaScript object is embedded as an association list where assignment
prepends and lookup takes the first hit, observationally the same as
overwrite. -/
structure DictionaryInstance where
  name : String
  activeStateConfiguration : List (String × Nat)
deriving DecidableEq, Repr

/-- The DictionaryInstance constructor: empty configuration. -/
def mkDictionaryInstance (name : String) : DictionaryInstance :=
  ⟨name, []⟩

/-- setCurrent: store the state under the region qualified name. -/
def DictionaryInstance.setCurrent (i : DictionaryInstance) (r : RegionRef) (s : Nat) : DictionaryInstance :=
  { i with activeStateConfiguration := (r.qualifiedName, s) :: i.activeStateConfiguration }

/-- getCurrent: look the region qualified name up, none when absent. -/
def DictionaryInstance.getCurrent (i : DictionaryInstance) (r : RegionRef) : Option Nat :=
  (i.activeStateConfiguration.find? (fun p => p.1 == r.qualifiedName)).map (fun p => p.2)

/-- State isFinal: no outgoing transitions. -/
def State.isFinal (m : Model) (s : Nat) : Bool :=
  (getVertex m s).outgoing.isEmpty

/-- Region isComplete: the current state of the region in the instance is
defined and is final. -/
def Region.isComplete (m : Model) (r : Nat) (i : DictionaryInstance) : Bool :=
  match i.getCurrent (Region.ref m r) with
  | some s => State.isFinal m s
  | none => false

/-- State isComplete: every child region is complete. -/
def State.isComplete (m : Model) (s : Nat) (i : DictionaryInstance) : Bool :=
  (getVertex m s).regions.all (fun r => Region.isComplete m r i)

/-- StateMachine isComplete: every top level region is complete. -/
def StateMachine.isComplete (m : Model) (i : DictionaryInstance) : Bool :=
  m.machineRegions.all (fun r => Region.isComplete m r i)

/-- The invoke helper: run each action token in order on the instance, with
the meaning of a token given by the environment. -/
def invokeActions (env : Nat → DictionaryInstance → DictionaryInstance) (acts : List Nat) (i : DictionaryInstance) : DictionaryInstance :=
  acts.foldl (fun j a => env a j) i

/-- The model only branch of StateMachine initialise: the graph is visited by
an InitialiseStateMachine visitor, which in this source is the default
Visitor (its methods only recurse and log, mutating nothing), and then the
clean flag is set. Its whole effect on the model is therefore setting clean
to true. -/
def StateMachine.initialiseModel (m : Model) : Model :=
  { m with clean := true }

/-- The instance branch of StateMachine initialise: when autoInitialiseModel
is set and clean is false, run the model compile first; then invoke the
onInitialise actions on the instance. The Bool result records whether the
model compile pass ran. -/
def StateMachine.initialise (env : Nat → DictionaryInstance → DictionaryInstance) (m : Model) (i : DictionaryInstance) (autoInitialiseModel : Bool) : Model × DictionaryInstance × Bool :=
  if autoInitialiseModel && !m.clean then
    let m1 := StateMachine.initialiseModel m
    (m1, invokeActions env m1.onInitialise i, true)
  else
    (m, invokeActions env m.onInitialise i, false)

/-
The fsm module of src/src/Vertex.ts: an older Vertex class whose transitions
carry a traverse action list. Its evaluate method selects a transition via
the abstract select method and, when one is selected, runs every traverse
action with the message, the instance and deepHistory false.
-/

/-- A transition of the fsm module: its guard and its traverse action list
(action tokens). -/
structure FsmTransition where
  guard : GuardRep
  traverse : List Nat
deriving DecidableEq, Repr

/-- Modelled from the spec: Vertex.select is abstract in src/src/Vertex.ts
(the subclasses overriding it are not in src), and section 4.2 of the spec
says selection takes the first outgoing transition whose guard evaluates
true for the message and instance, declaration order being the tie break. -/
def Vertex.select (env : Nat → Message → Nat → Bool) (outgoing : List FsmTransition) (message : Message) (inst : Nat) : Option FsmTransition :=
  outgoing.find? (fun t => t.guard.eval env message inst)

/-- One executed traverse action: its token, the message it received and the
deepHistory flag it received. -/
abbrev TraceEntry := Nat × Message × Bool

/-- Vertex evaluate of the fsm module: select a transition; with none,
return false having run nothing; otherwise run the traverse actions of that
transition in order (each receiving the message and deepHistory false) and
return true. The second component is the ordered trace of executed
actions. -/
def Vertex.evaluate (env : Nat → Message → Nat → Bool) (outgoing : List FsmTransition) (message : Message) (inst : Nat) : Bool × List TraceEntry :=
  match Vertex.select env outgoing message inst with
  | none => (false, [])
  | some t => (true, t.traverse.map (fun a => (a, message, false)))

/-
The structural mutations of the builder surface, as one operation type, so
that the clean flag invariant quantifies over all of them at once.
-/

/-- One structural mutation of the model: a Region, Vertex or Transition
constructor call, or an enter, exit or effect behavior append. -/
inductive BuildOp where
  | mkRegion (name : String) (parent : RegionParent)
  | mkVertex (name : String) (cls : VertexClass) (parent : VertexParent)
  | mkTransition (source : Nat) (target : Option Nat) (kind : TransitionKind)
  | enterOp (s : Nat) (action : Nat)
  | exitOp (s : Nat) (action : Nat)
  | effectOp (t : Nat) (action : Nat)
deriving DecidableEq, Repr

/-- Apply one structural mutation. -/
def applyBuildOp (m : Model) : BuildOp → Model
  | BuildOp.mkRegion name parent => (newRegion name parent m).1
  | BuildOp.mkVertex name cls parent => (newVertex name cls parent m).1
  | BuildOp.mkTransition source target kind => (newTransition source target kind m).1
  | BuildOp.enterOp s action => State.enter s action m
  | BuildOp.exitOp s action => State.exit s action m
  | BuildOp.effectOp t action => Transition.effect t action m

/-
List lemmas about getD over set and append, the arena counterparts of field
assignment and allocation.
-/

theorem getD_set_self {α : Type} (l : List α) (n : Nat) (a d : α) (h : n < l.length) :
    (l.set n a).getD n d = a := by
  induction l generalizing n with
  | nil => simp at h
  | cons x xs ih =>
      cases n with
      | zero => rfl
      | succ k => exact ih k (Nat.lt_of_succ_lt_succ h)

theorem getD_set_ne {α : Type} (l : List α) (n k : Nat) (a d : α) (h : n ≠ k) :
    (l.set k a).getD n d = l.getD n d := by
  induction l generalizing n k with
  | nil => rfl
  | cons x xs ih =>
      cases k with
      | zero =>
          cases n with
          | zero => exact absurd rfl h
          | succ j => rfl
      | succ k2 =>
          cases n with
          | zero => rfl
          | succ j => exact ih j k2 (fun e => h (by rw [e]))

theorem getD_append_length {α : Type} (l : List α) (a d : α) :
    (l ++ [a]).getD l.length d = a := by
  induction l with
  | nil => rfl
  | cons x xs ih => exact ih

theorem getD_append_lt {α : Type} (l l2 : List α) (n : Nat) (d : α) (h : n < l.length) :
    (l ++ l2).getD n d = l.getD n d := by
  induction l generalizing n with
  | nil => simp at h
  | cons x xs ih =>
      cases n with
      | zero => rfl
      | succ k => exact ih k (Nat.lt_of_succ_lt_succ h)

/-
Helper lemmas about the arena operations.
-/

theorem updateVertex_clean (m : Model) (v : Nat) (f : VertexData → VertexData) :
    (updateVertex m v f).clean = m.clean := rfl

theorem updateVertex_transArena (m : Model) (v : Nat) (f : VertexData → VertexData) :
    (updateVertex m v f).transArena = m.transArena := rfl

theorem updateVertex_vertexArena_length (m : Model) (v : Nat) (f : VertexData → VertexData) :
    (updateVertex m v f).vertexArena.length = m.vertexArena.length := by
  simp [updateVertex]

theorem getVertex_update_self (m : Model) (v : Nat) (f : VertexData → VertexData) (h : v < m.vertexArena.length) :
    getVertex (updateVertex m v f) v = f (getVertex m v) := by
  show (m.vertexArena.set v (f (getVertex m v))).getD v defaultVertexData = f (getVertex m v)
  exact getD_set_self _ _ _ _ h

theorem getVertex_update_ne (m : Model) (v w : Nat) (f : VertexData → VertexData) (h : w ≠ v) :
    getVertex (updateVertex m v f) w = getVertex m w := by
  show (m.vertexArena.set v (f (getVertex m v))).getD w defaultVertexData = m.vertexArena.getD w defaultVertexData
  exact getD_set_ne _ _ _ _ _ h

theorem getVertex_update_oob (m : Model) (v : Nat) (f : VertexData → VertexData) (h : m.vertexArena.length ≤ v) :
    updateVertex m v f = m := by
  simp [updateVertex, List.set_eq_of_length_le h]

/-- An update that does not touch the incoming field of any vertex does not
change the incoming field seen at any id. -/
theorem getVertex_update_incoming (m : Model) (v w : Nat) (f : VertexData → VertexData)
    (hf : ∀ x, (f x).incoming = x.incoming) :
    (getVertex (updateVertex m v f) w).incoming = (getVertex m w).incoming := by
  by_cases hw : w = v
  · subst hw
    by_cases hv : w < m.vertexArena.length
    · rw [getVertex_update_self m w f hv, hf]
    · rw [getVertex_update_oob m w f (Nat.le_of_not_lt hv)]
  · rw [getVertex_update_ne m v w f hw]

/-- Every structural mutation leaves the clean flag false. -/
theorem applyBuildOp_clean_false (m : Model) (op : BuildOp) :
    (applyBuildOp m op).clean = false := by
  cases op with
  | mkRegion name parent =>
      simp only [applyBuildOp, newRegion]
  | mkVertex name cls parent =>
      simp only [applyBuildOp, newVertex]
  | mkTransition source target kind =>
      cases target with
      | none => simp only [applyBuildOp, newTransition]
      | some t => simp only [applyBuildOp, newTransition, updateVertex_clean]
  | enterOp s action => simp only [applyBuildOp, State.enter]
  | exitOp s action => simp only [applyBuildOp, State.exit]
  | effectOp t action => simp only [applyBuildOp, Transition.effect]

/-- Folding structural mutations over a model with a false clean flag keeps
it false. -/
theorem foldl_buildOps_clean (l : List BuildOp) (m : Model) (h : m.clean = false) :
    (l.foldl applyBuildOp m).clean = false := by
  induction l generalizing m with
  | nil => exact h
  | cons op rest ih =>
      simp only [List.foldl_cons]
      exact ih (applyBuildOp m op) (applyBuildOp_clean_false m op)

/-- The transition record produced by the Transition constructor. -/
theorem getTrans_newTransition (source : Nat) (target : Option Nat) (kind : TransitionKind) (m : Model) :
    getTrans (newTransition source target kind m).1 (newTransition source target kind m).2 =
      ⟨source, target,
        if target.isSome then kind else TransitionKind.Internal,
        if isPseudoState m source then GuardRep.defaultPseudo else GuardRep.defaultState source,
        []⟩ := by
  cases target with
  | none =>
      simp only [newTransition, getTrans, updateVertex_transArena]
      exact getD_append_length _ _ _
  | some t =>
      simp only [newTransition, getTrans, updateVertex_transArena]
      exact getD_append_length _ _ _

/-
Small concrete models used by witnesses: a machine M, a State s placed under
the machine (allocating the default region, region id 0, vertex id 0) and a
PseudoState p in the same region (vertex id 1).
-/

/-- A fresh StateMachine named M. -/
def sampleMachine : Model := mkStateMachine "M"

/-- sampleMachine after new State s under the machine: region 0 is the
machine default region, vertex 0 is the state. -/
def sampleModel1 : Model :=
  (newVertex "s" VertexClass.state VertexParent.machine sampleMachine).1

/-- sampleModel1 after new PseudoState p in region 0: vertex 1. -/
def sampleModel2 : Model :=
  (newVertex "p" (VertexClass.pseudoState PseudoStateKind.Initial) (VertexParent.region 0) sampleModel1).1

/-- sampleModel2 after a transition from the state (vertex 0) to the pseudo
state (vertex 1): transition 0. -/
def sampleModel3 : Model :=
  (newTransition 0 (some 1) TransitionKind.External sampleModel2).1

/-
Claim theorems.
-/

/-- Claim C1: the claim says the enter builder appends its action to the
entry behavior list of the state and leaves the exit behavior list
unchanged. The code does the opposite of the first part: State.enter pushes
onto exitBehavior. Evaluated at the failing input (a fresh machine with one
state and a single enter call with behavior token 7), the entry behavior
list stays empty and the exit behavior list receives the token, so the claim
fails on the code; the data model of the source (a separate entryBehavior
field that nothing else writes) shows the claim is the intent and the code
is the slip. -/
theorem enter_pushes_to_exit_list :
    (getVertex (State.enter 0 7 sampleModel1) 0).entryBehavior = [] ∧
    (getVertex (State.enter 0 7 sampleModel1) 0).exitBehavior = [7] := by
  constructor
  · rfl
  · rfl

/-- Claim C2: every structural mutation (a Region, Vertex or Transition
constructor call anywhere in the graph, or an entry, exit or effect behavior
append) resets the clean flag of the root StateMachine to false, and so does
any nonempty sequence of such mutations; hence a true clean flag means no
structural element has been added since the last compile pass. -/
theorem structural_mutation_clears_clean (m : Model) (op : BuildOp) (l : List BuildOp) :
    ((op :: l).foldl applyBuildOp m).clean = false := by
  simp only [List.foldl_cons]
  exact foldl_buildOps_clean l (applyBuildOp m op) (applyBuildOp_clean_false m op)

/-- Claim C9: the else and when builders replace only the guard of the
transition they are called on, leaving the clean flag (and every other part
of the model) unchanged, while effect appends its action to the effect
behavior list of that transition and resets the clean flag to false. -/
theorem when_else_guard_only_effect_clears_clean (m : Model) (t g b : Nat) (h : t < m.transArena.length) :
    (Transition.elseOp t m).clean = m.clean ∧
    (getTrans (Transition.elseOp t m) t).guard = GuardRep.elseGuard ∧
    Transition.elseOp t m = { m with transArena := m.transArena.set t { getTrans m t with guard := GuardRep.elseGuard } } ∧
    (Transition.when t g m).clean = m.clean ∧
    (getTrans (Transition.when t g m) t).guard = GuardRep.userGuard g ∧
    Transition.when t g m = { m with transArena := m.transArena.set t { getTrans m t with guard := GuardRep.userGuard g } } ∧
    (Transition.effect t b m).clean = false ∧
    (getTrans (Transition.effect t b m) t).effectBehavior = (getTrans m t).effectBehavior ++ [b] ∧
    (getTrans (Transition.effect t b m) t).guard = (getTrans m t).guard ∧
    (getTrans (Transition.effect t b m) t).source = (getTrans m t).source ∧
    (getTrans (Transition.effect t b m) t).target = (getTrans m t).target ∧
    (getTrans (Transition.effect t b m) t).kind = (getTrans m t).kind := by
  have hElse : getTrans (Transition.elseOp t m) t = { getTrans m t with guard := GuardRep.elseGuard } := by
    show (m.transArena.set t { getTrans m t with guard := GuardRep.elseGuard }).getD t defaultTransitionData = _
    exact getD_set_self _ _ _ _ h
  have hWhen : getTrans (Transition.when t g m) t = { getTrans m t with guard := GuardRep.userGuard g } := by
    show (m.transArena.set t { getTrans m t with guard := GuardRep.userGuard g }).getD t defaultTransitionData = _
    exact getD_set_self _ _ _ _ h
  have hEff : getTrans (Transition.effect t b m) t =
      { getTrans m t with effectBehavior := (getTrans m t).effectBehavior ++ [b] } := by
    show (m.transArena.set t { getTrans m t with effectBehavior := (getTrans m t).effectBehavior ++ [b] }).getD t defaultTransitionData = _
    exact getD_set_self _ _ _ _ h
  refine ⟨rfl, ?_, rfl, rfl, ?_, rfl, rfl, ?_, ?_, ?_, ?_, ?_⟩
  · rw [hElse]
  · rw [hWhen]
  · rw [hEff]
  · rw [hEff]
  · rw [hEff]
  · rw [hEff]
  · rw [hEff]

/-- Witness for claim C9 at the concrete transition 0 of sampleModel3. -/
theorem when_else_guard_only_effect_clears_clean_witness :
    (Transition.elseOp 0 sampleModel3).clean = sampleModel3.clean ∧
    (getTrans (Transition.elseOp 0 sampleModel3) 0).guard = GuardRep.elseGuard ∧
    (Transition.effect 0 7 sampleModel3).clean = false ∧
    (getTrans (Transition.effect 0 7 sampleModel3) 0).effectBehavior = (getTrans sampleModel3 0).effectBehavior ++ [7] := by
  have h := when_else_guard_only_effect_clears_clean sampleModel3 0 5 7 (by decide)
  exact ⟨h.1, h.2.1, h.2.2.2.2.2.2.1, h.2.2.2.2.2.2.2.1⟩

/-- Claim C3: before any explicit guard is set, the default guard of a newly
constructed Transition returns true for every message and instance when the
source is a PseudoState, and when the source is a State it returns true
exactly when the message is a reference to that source vertex. -/
theorem default_guard_semantics (m : Model) (src : Nat) (tgt : Option Nat) (k : TransitionKind)
    (env : Nat → Message → Nat → Bool) (msg : Message) (inst : Nat) :
    (isPseudoState m src = true →
      (getTrans (newTransition src tgt k m).1 (newTransition src tgt k m).2).guard.eval env msg inst = true) ∧
    (isStateVertex m src = true →
      ((getTrans (newTransition src tgt k m).1 (newTransition src tgt k m).2).guard.eval env msg inst = true
        ↔ msg = Message.vertexMsg src)) := by
  rw [getTrans_newTransition]
  constructor
  · intro hp
    simp [hp, GuardRep.eval]
  · intro hs
    have hp : isPseudoState m src = false := by
      unfold isPseudoState
      unfold isStateVertex at hs
      cases hcls : (getVertex m src).cls with
      | vertex => rfl
      | pseudoState kk => rw [hcls] at hs; exact absurd hs (by simp)
      | state => rfl
    cases msg with
    | vertexMsg i => simp [hp, GuardRep.eval]
    | dataMsg n => simp [hp, GuardRep.eval]

/-- Witness for claim C3: in sampleModel2, a transition out of the pseudo
state (vertex 1) gets the always true guard, and a transition out of the
state (vertex 0) gets the guard true on the message that is vertex 0. -/
theorem default_guard_semantics_witness :
    (getTrans (newTransition 1 none TransitionKind.External sampleModel2).1
      (newTransition 1 none TransitionKind.External sampleModel2).2).guard.eval
        (fun _ _ _ => false) (Message.dataMsg 9) 0 = true ∧
    (getTrans (newTransition 0 none TransitionKind.External sampleModel2).1
      (newTransition 0 none TransitionKind.External sampleModel2).2).guard.eval
        (fun _ _ _ => false) (Message.vertexMsg 0) 0 = true ∧
    (getTrans (newTransition 0 none TransitionKind.External sampleModel2).1
      (newTransition 0 none TransitionKind.External sampleModel2).2).guard.eval
        (fun _ _ _ => false) (Message.dataMsg 9) 0 = false := by
  have h1 := (default_guard_semantics sampleModel2 1 none TransitionKind.External
    (fun _ _ _ => false) (Message.dataMsg 9) 0).1 (by decide)
  have h2 := (default_guard_semantics sampleModel2 0 none TransitionKind.External
    (fun _ _ _ => false) (Message.vertexMsg 0) 0).2 (by decide)
  have h3 := (default_guard_semantics sampleModel2 0 none TransitionKind.External
    (fun _ _ _ => false) (Message.dataMsg 9) 0).2 (by decide)
  refine ⟨h1, h2.mpr rfl, ?_⟩
  cases hb : (getTrans (newTransition 0 none TransitionKind.External sampleModel2).1
      (newTransition 0 none TransitionKind.External sampleModel2).2).guard.eval
        (fun _ _ _ => false) (Message.dataMsg 9) 0 with
  | false => rfl
  | true => exact absurd (h3.mp hb) (by simp)

/-- The id returned by the Transition constructor is the old arena length. -/
theorem newTransition_snd (source : Nat) (target : Option Nat) (kind : TransitionKind) (m : Model) :
    (newTransition source target kind m).2 = m.transArena.length := by
  cases target <;> rfl

/-- The Transition constructor appends the fresh id to the incoming list of
its target. -/
theorem getVertex_newTransition_incoming (source tgt : Nat) (kind : TransitionKind) (m : Model)
    (h : tgt < m.vertexArena.length) :
    (getVertex (newTransition source (some tgt) kind m).1 tgt).incoming
      = (getVertex m tgt).incoming ++ [m.transArena.length] := by
  simp only [newTransition, getVertex, updateVertex]
  rw [getD_set_self _ tgt _ _ (by simpa using h)]
  by_cases hst : tgt = source
  · subst hst
    rw [getD_set_self _ tgt _ _ h]
  · rw [getD_set_ne _ tgt source _ _ hst]

/-- Claim C4: a Transition constructed without a target has kind Internal
regardless of the requested kind; with a target the requested kind is kept
and the transition id is appended to the incoming list of the target. -/
theorem missing_target_forces_internal (m : Model) (src tgt : Nat) (k : TransitionKind)
    (h : tgt < m.vertexArena.length) :
    (getTrans (newTransition src none k m).1 (newTransition src none k m).2).kind = TransitionKind.Internal ∧
    (getTrans (newTransition src (some tgt) k m).1 (newTransition src (some tgt) k m).2).kind = k ∧
    (getVertex (newTransition src (some tgt) k m).1 tgt).incoming
      = (getVertex m tgt).incoming ++ [(newTransition src (some tgt) k m).2] := by
  refine ⟨?_, ?_, ?_⟩
  · rw [getTrans_newTransition]
    rfl
  · rw [getTrans_newTransition]
    rfl
  · rw [newTransition_snd]
    exact getVertex_newTransition_incoming src tgt k m h

/-- Witness for claim C4 on sampleModel2: a targetless transition out of
vertex 0 is Internal even though Local was requested, and with target vertex
1 the Local kind is kept and the incoming list of vertex 1 receives the
fresh transition id 0. -/
theorem missing_target_forces_internal_witness :
    (getTrans (newTransition 0 none TransitionKind.Local sampleModel2).1
      (newTransition 0 none TransitionKind.Local sampleModel2).2).kind = TransitionKind.Internal ∧
    (getTrans (newTransition 0 (some 1) TransitionKind.Local sampleModel2).1
      (newTransition 0 (some 1) TransitionKind.Local sampleModel2).2).kind = TransitionKind.Local ∧
    (getVertex (newTransition 0 (some 1) TransitionKind.Local sampleModel2).1 1).incoming
      = (getVertex sampleModel2 1).incoming ++ [(newTransition 0 (some 1) TransitionKind.Local sampleModel2).2] := by
  exact missing_target_forces_internal sampleModel2 0 1 TransitionKind.Local (by decide)

/-- Claim C5: for every instance, a Region is complete exactly when the
current state recorded for the region in the instance is defined and has no
outgoing transitions (is final); a State is complete exactly when every
child Region is complete, vacuously so with no child regions; the
StateMachine is complete exactly when every top level Region is complete. -/
theorem isComplete_characterisation (m : Model) (i : DictionaryInstance) (r s : Nat) :
    (Region.isComplete m r i = true ↔
      ∃ st, i.getCurrent (Region.ref m r) = some st ∧ (getVertex m st).outgoing = []) ∧
    (State.isComplete m s i = true ↔ ∀ r2 ∈ (getVertex m s).regions, Region.isComplete m r2 i = true) ∧
    ((getVertex m s).regions = [] → State.isComplete m s i = true) ∧
    (StateMachine.isComplete m i = true ↔ ∀ r2 ∈ m.machineRegions, Region.isComplete m r2 i = true) := by
  refine ⟨?_, ?_, ?_, ?_⟩
  · unfold Region.isComplete
    cases hc : i.getCurrent (Region.ref m r) with
    | none => simp
    | some st => simp [State.isFinal, List.isEmpty_iff]
  · unfold State.isComplete
    simp [List.all_eq_true]
  · intro hz
    unfold State.isComplete
    rw [hz]
    rfl
  · unfold StateMachine.isComplete
    simp [List.all_eq_true]

/-- Witness for claim C5: the simple state of sampleModel1 (no child
regions) is complete for a fresh instance, and its region 0 is complete for
an instance whose current state for the region is the final state 0. -/
theorem isComplete_characterisation_witness :
    State.isComplete sampleModel1 0 (mkDictionaryInstance "i") = true ∧
    Region.isComplete sampleModel1 0
      ((mkDictionaryInstance "i").setCurrent (Region.ref sampleModel1 0) 0) = true := by
  constructor
  · exact (isComplete_characterisation sampleModel1 (mkDictionaryInstance "i") 0 0).2.2.1 (by decide)
  · exact (isComplete_characterisation sampleModel1
      ((mkDictionaryInstance "i").setCurrent (Region.ref sampleModel1 0) 0) 0 0).1.mpr
      ⟨0, by decide, by decide⟩

/-- Claim C6: the model only initialise is idempotent (a second call with no
intervening structural mutation changes nothing, and neither call mutates
the graph: only the clean flag is written), and once the clean flag is true
an instance initialise does not trigger another model compile pass and
leaves the model untouched. -/
theorem initialise_idempotent (m : Model) (env : Nat → DictionaryInstance → DictionaryInstance)
    (i : DictionaryInstance) (auto : Bool) (h : m.clean = true) :
    StateMachine.initialiseModel (StateMachine.initialiseModel m) = StateMachine.initialiseModel m ∧
    (StateMachine.initialiseModel m).regionArena = m.regionArena ∧
    (StateMachine.initialiseModel m).vertexArena = m.vertexArena ∧
    (StateMachine.initialiseModel m).transArena = m.transArena ∧
    (StateMachine.initialiseModel m).machineRegions = m.machineRegions ∧
    StateMachine.initialise env m i auto = (m, invokeActions env m.onInitialise i, false) := by
  refine ⟨rfl, rfl, rfl, rfl, rfl, ?_⟩
  unfold StateMachine.initialise
  rw [h]
  simp

/-- sampleModel1 after its model compile pass: the clean flag is true. -/
def compiledModel : Model := StateMachine.initialiseModel sampleModel1

/-- Witness for claim C6 on compiledModel. -/
theorem initialise_idempotent_witness :
    StateMachine.initialiseModel (StateMachine.initialiseModel compiledModel)
      = StateMachine.initialiseModel compiledModel ∧
    StateMachine.initialise (fun _ j => j) compiledModel (mkDictionaryInstance "i") true
      = (compiledModel, mkDictionaryInstance "i", false) := by
  have h := initialise_idempotent compiledModel (fun _ j => j) (mkDictionaryInstance "i") true rfl
  exact ⟨h.1, h.2.2.2.2.2⟩

/-- Folding setCurrent calls whose keys all differ from the qualified name
of a region leaves a lookup of that region unchanged. -/
theorem getCurrent_foldl_ne (ops : List (RegionRef × Nat)) (j : DictionaryInstance) (r : RegionRef)
    (h : ∀ p ∈ ops, p.1.qualifiedName ≠ r.qualifiedName) :
    (ops.foldl (fun j2 p => j2.setCurrent p.1 p.2) j).getCurrent r = j.getCurrent r := by
  induction ops generalizing j with
  | nil => rfl
  | cons p rest ih =>
      simp only [List.foldl_cons]
      rw [ih (j.setCurrent p.1 p.2) (fun q hq => h q (List.mem_cons_of_mem p hq))]
      unfold DictionaryInstance.setCurrent DictionaryInstance.getCurrent
      have hne : (p.1.qualifiedName == r.qualifiedName) = false := by
        simp [h p (List.mem_cons_self p rest)]
      simp [List.find?_cons, hne]

/-- Claim C7: the DictionaryInstance store keys entries by the region
qualified path string and never by object identity alone: a lookup through
any region ref with the same qualified name sees the stored state, a region
whose qualified name was never set (in particular on a fresh instance) reads
none, and regions with distinct qualified names (as two structurally
distinct models have) never collide. Each instance value carries its own
configuration, so distinct instances share no entries. -/
theorem dictionary_keyed_by_qualified_name (i : DictionaryInstance) (r r2 : RegionRef) (s : Nat)
    (nm : String) (ops : List (RegionRef × Nat)) :
    (r2.qualifiedName = r.qualifiedName → (i.setCurrent r s).getCurrent r2 = some s) ∧
    (r2.qualifiedName ≠ r.qualifiedName → (i.setCurrent r s).getCurrent r2 = i.getCurrent r2) ∧
    (mkDictionaryInstance nm).getCurrent r = none ∧
    ((∀ p ∈ ops, p.1.qualifiedName ≠ r.qualifiedName) →
      (ops.foldl (fun j p => j.setCurrent p.1 p.2) (mkDictionaryInstance nm)).getCurrent r = none) := by
  refine ⟨?_, ?_, rfl, ?_⟩
  · intro hq
    unfold DictionaryInstance.setCurrent DictionaryInstance.getCurrent
    simp [List.find?_cons, hq]
  · intro hq
    unfold DictionaryInstance.setCurrent DictionaryInstance.getCurrent
    have hne : (r.qualifiedName == r2.qualifiedName) = false := by
      simp
      intro e
      exact hq (e.symm)
    simp [List.find?_cons, hne]
  · intro hops
    rw [getCurrent_foldl_ne ops _ r hops]
    rfl

/-- Witness for claim C7 at concrete qualified names. -/
theorem dictionary_keyed_by_qualified_name_witness :
    (DictionaryInstance.getCurrent
      ((mkDictionaryInstance "i").setCurrent ⟨"M.red"⟩ 3) ⟨"M.red"⟩) = some 3 ∧
    (DictionaryInstance.getCurrent
      ((mkDictionaryInstance "i").setCurrent ⟨"M.red"⟩ 3) ⟨"N.red"⟩)
        = (mkDictionaryInstance "i").getCurrent ⟨"N.red"⟩ ∧
    (mkDictionaryInstance "j").getCurrent ⟨"M.red"⟩ = none ∧
    (DictionaryInstance.getCurrent
      ([(⟨"N.red"⟩, 4), (⟨"N.blue"⟩, 5)].foldl
        (fun j p => DictionaryInstance.setCurrent j p.1 p.2) (mkDictionaryInstance "i")) ⟨"M.red"⟩) = none := by
  have h1 := dictionary_keyed_by_qualified_name (mkDictionaryInstance "i") (⟨"M.red"⟩ : RegionRef)
    (⟨"M.red"⟩ : RegionRef) 3 "j" ([] : List (RegionRef × Nat))
  have h2 := dictionary_keyed_by_qualified_name (mkDictionaryInstance "i") (⟨"M.red"⟩ : RegionRef)
    (⟨"N.red"⟩ : RegionRef) 3 "j" ([(⟨"N.red"⟩, 4), (⟨"N.blue"⟩, 5)] : List (RegionRef × Nat))
  refine ⟨h1.1 rfl, h2.2.1 (by decide), h1.2.2.1, ?_⟩
  have h3 := dictionary_keyed_by_qualified_name (mkDictionaryInstance "i") (⟨"M.red"⟩ : RegionRef)
    (⟨"N.red"⟩ : RegionRef) 3 "i" ([(⟨"N.red"⟩, 4), (⟨"N.blue"⟩, 5)] : List (RegionRef × Nat))
  exact h3.2.2.2 (by decide)

/-- Claim C8: when no outgoing transition is selected for a message (every
guard evaluates false, hence selection finds nothing) evaluate returns false
and executes no traversal action; when a transition is selected, evaluate
executes exactly the traverse actions of that one transition in order (each
receiving the message and deepHistory false) and returns true. -/
theorem evaluate_inert_or_single_transition (env : Nat → Message → Nat → Bool)
    (outgoing : List FsmTransition) (msg : Message) (inst : Nat) (t : FsmTransition) :
    ((∀ tr ∈ outgoing, tr.guard.eval env msg inst = false) →
      Vertex.evaluate env outgoing msg inst = (false, [])) ∧
    (Vertex.select env outgoing msg inst = some t →
      Vertex.evaluate env outgoing msg inst = (true, t.traverse.map (fun a => (a, msg, false)))) := by
  constructor
  · intro hall
    unfold Vertex.evaluate Vertex.select
    have hnone : outgoing.find? (fun tr => tr.guard.eval env msg inst) = none := by
      rw [List.find?_eq_none]
      intro x hx
      simp [hall x hx]
    rw [hnone]
  · intro hsel
    unfold Vertex.evaluate
    rw [hsel]

/-- Witness for claim C8: a vertex whose only transition has a false guard
reports an inert message; a vertex with a false guarded then a true guarded
transition runs exactly the traverse actions of the second and reports
true. -/
theorem evaluate_inert_or_single_transition_witness :
    Vertex.evaluate (fun _ _ _ => false) [⟨GuardRep.elseGuard, [1]⟩] (Message.dataMsg 0) 0 = (false, []) ∧
    Vertex.evaluate (fun _ _ _ => false)
      [⟨GuardRep.elseGuard, [1]⟩, ⟨GuardRep.defaultPseudo, [4, 5]⟩] (Message.dataMsg 0) 0
        = (true, [(4, Message.dataMsg 0, false), (5, Message.dataMsg 0, false)]) := by
  constructor
  · exact (evaluate_inert_or_single_transition (fun _ _ _ => false) [⟨GuardRep.elseGuard, [1]⟩]
      (Message.dataMsg 0) 0 ⟨GuardRep.elseGuard, [1]⟩).1 (by decide)
  · exact (evaluate_inert_or_single_transition (fun _ _ _ => false)
      [⟨GuardRep.elseGuard, [1]⟩, ⟨GuardRep.defaultPseudo, [4, 5]⟩]
      (Message.dataMsg 0) 0 ⟨GuardRep.defaultPseudo, [4, 5]⟩).2 (by decide)

/-
Helper lemmas for the getDefaultRegion claim.
-/

theorem getVertex_cleanFalse (m : Model) (w : Nat) :
    getVertex { m with clean := false } w = getVertex m w := rfl

theorem getVertex_regionArenaSet (m : Model) (x : List RegionData) (w : Nat) :
    getVertex { m with regionArena := x } w = getVertex m w := rfl

theorem getRegion_updateVertex (m : Model) (v : Nat) (f : VertexData → VertexData) (r : Nat) :
    getRegion (updateVertex m v f) r = getRegion m r := rfl

theorem getRegion_cleanFalse (m : Model) (r : Nat) :
    getRegion { m with clean := false } r = getRegion m r := rfl

theorem getRegion_regionAppend (m : Model) (rd : RegionData) :
    getRegion { m with regionArena := m.regionArena ++ [rd] } m.regionArena.length = rd := by
  unfold getRegion
  exact getD_append_length _ _ _

/-- getRegion only reads the regionArena field, stated over a fully explicit
model record whose regionArena ends in a fresh slot. -/
theorem getRegion_fields_append (a : String) (b : List Nat) (c : Option Nat) (d : Bool)
    (e : List Nat) (l : List RegionData) (rd : RegionData)
    (va : List VertexData) (ta : List TransitionData) :
    getRegion ⟨a, b, c, d, e, l ++ [rd], va, ta⟩ l.length = rd := by
  unfold getRegion
  exact getD_append_length _ _ _

/-- A second getDefaultRegion call on a State returns the recorded region
and does not touch the model. -/
theorem State.getDefaultRegion_cached (m : Model) (s r : Nat)
    (h : (getVertex m s).defaultRegion = some r) :
    State.getDefaultRegion s m = (m, r) := by
  unfold State.getDefaultRegion
  rw [h]

/-- A second getDefaultRegion call on the StateMachine returns the recorded
region and does not touch the model. -/
theorem StateMachine.machineDefaultRegion_cached (m : Model) (r : Nat)
    (h : m.machineDefaultRegion = some r) :
    StateMachine.getDefaultRegion m = (m, r) := by
  unfold StateMachine.getDefaultRegion
  rw [h]

/-- The first getDefaultRegion call on a State returns the fresh region id. -/
theorem State.getDefaultRegion_first_snd (m : Model) (s : Nat)
    (h : (getVertex m s).defaultRegion = none) :
    (State.getDefaultRegion s m).2 = m.regionArena.length := by
  unfold State.getDefaultRegion
  rw [h]
  rfl

/-- The region allocated by the first getDefaultRegion call on a State is
named default and owned by that state. -/
theorem State.getDefaultRegion_first_region (m : Model) (s : Nat)
    (h : (getVertex m s).defaultRegion = none) :
    getRegion (State.getDefaultRegion s m).1 (State.getDefaultRegion s m).2 =
      ⟨"default", RegionParent.state s, (getVertex m s).qualifiedName ++ "." ++ "default", []⟩ := by
  unfold State.getDefaultRegion
  rw [h]
  simp only [newRegion, parentToString]
  rw [getRegion_updateVertex, getRegion_cleanFalse, getRegion_updateVertex, getRegion_regionAppend]

/-- The vertex record of the state after the first getDefaultRegion call:
the fresh region is appended to its regions list and recorded as its default
region, everything else unchanged. -/
theorem State.getDefaultRegion_first_vertex (m : Model) (s : Nat)
    (hs : s < m.vertexArena.length) (h : (getVertex m s).defaultRegion = none) :
    getVertex (State.getDefaultRegion s m).1 s =
      { getVertex m s with
          regions := (getVertex m s).regions ++ [m.regionArena.length],
          defaultRegion := some m.regionArena.length } := by
  unfold State.getDefaultRegion
  rw [h]
  simp only [newRegion, parentToString]
  rw [getVertex_update_self _ s _ (by simpa [updateVertex] using hs)]
  rw [getVertex_cleanFalse]
  rw [getVertex_update_self _ s _ (by simpa using hs)]
  rw [getVertex_regionArenaSet]

/-- The clean flag after the first getDefaultRegion call on a State. -/
theorem State.getDefaultRegion_first_clean (m : Model) (s : Nat)
    (h : (getVertex m s).defaultRegion = none) :
    (State.getDefaultRegion s m).1.clean = false := by
  unfold State.getDefaultRegion
  rw [h]
  rfl

/-- The first getDefaultRegion call on the StateMachine returns the fresh
region id. -/
theorem StateMachine.machineDefaultRegion_first_snd (m : Model)
    (h : m.machineDefaultRegion = none) :
    (StateMachine.getDefaultRegion m).2 = m.regionArena.length := by
  unfold StateMachine.getDefaultRegion
  rw [h]
  rfl

/-- The region allocated by the first getDefaultRegion call on the
StateMachine is named default and owned by the machine. -/
theorem StateMachine.machineDefaultRegion_first_region (m : Model)
    (h : m.machineDefaultRegion = none) :
    getRegion (StateMachine.getDefaultRegion m).1 (StateMachine.getDefaultRegion m).2 =
      ⟨"default", RegionParent.machine, m.machineName ++ "." ++ "default", []⟩ := by
  unfold StateMachine.getDefaultRegion
  rw [h]
  simp only [newRegion, parentToString]
  exact getRegion_fields_append _ _ _ _ _ _ _ _ _

/-- The machine fields after the first getDefaultRegion call on the
StateMachine: the fresh region is appended to machineRegions, recorded as
machineDefaultRegion, and the clean flag is cleared. -/
theorem StateMachine.getDefaultRegion_first_machine (m : Model)
    (h : m.machineDefaultRegion = none) :
    (StateMachine.getDefaultRegion m).1.machineDefaultRegion = some m.regionArena.length ∧
    (StateMachine.getDefaultRegion m).1.machineRegions = m.machineRegions ++ [m.regionArena.length] ∧
    (StateMachine.getDefaultRegion m).1.clean = false := by
  unfold StateMachine.getDefaultRegion
  rw [h]
  exact ⟨rfl, rfl, rfl⟩

/-- The fresh vertex produced by the Vertex constructor, as a record. -/
theorem getVertex_vertexAppend (m : Model) (vd : VertexData) :
    getVertex { m with vertexArena := m.vertexArena ++ [vd] } m.vertexArena.length = vd := by
  unfold getVertex
  exact getD_append_length _ _ _

theorem getVertex_updateRegion (m : Model) (r : Nat) (f : RegionData → RegionData) (w : Nat) :
    getVertex (updateRegion m r f) w = getVertex m w := rfl

/-- A Vertex constructed under a State parent is placed in the default
region of that state. -/
theorem newVertex_state_parent (nm : String) (cls : VertexClass) (s : Nat) (m : Model) :
    (getVertex (newVertex nm cls (VertexParent.state s) m).1
      (newVertex nm cls (VertexParent.state s) m).2).parent = (State.getDefaultRegion s m).2 := by
  simp only [newVertex]
  rw [getVertex_cleanFalse, getVertex_updateRegion, getVertex_vertexAppend]

/-- A Vertex constructed under the StateMachine parent is placed in the
default region of the machine. -/
theorem newVertex_machine_parent (nm : String) (cls : VertexClass) (m : Model) :
    (getVertex (newVertex nm cls VertexParent.machine m).1
      (newVertex nm cls VertexParent.machine m).2).parent = (StateMachine.getDefaultRegion m).2 := by
  simp only [newVertex]
  rw [getVertex_cleanFalse, getVertex_updateRegion, getVertex_vertexAppend]

/-- Claim C10: getDefaultRegion is lazy and idempotent on States and on the
StateMachine: a first call allocates a child Region named default under the
caller, records it and clears the clean flag; any later call returns that
same region without touching the model; and the Vertex constructor places a
vertex whose parent argument is a State or the StateMachine into this
default region. -/
theorem getDefaultRegion_lazy_idempotent (m : Model) (s r0 : Nat) (nm : String) (cls : VertexClass)
    (hs : s < m.vertexArena.length) :
    ((getVertex m s).defaultRegion = none →
      getRegion (State.getDefaultRegion s m).1 (State.getDefaultRegion s m).2 =
        ⟨"default", RegionParent.state s, (getVertex m s).qualifiedName ++ "." ++ "default", []⟩ ∧
      (getVertex (State.getDefaultRegion s m).1 s).defaultRegion = some (State.getDefaultRegion s m).2 ∧
      (getVertex (State.getDefaultRegion s m).1 s).regions
        = (getVertex m s).regions ++ [(State.getDefaultRegion s m).2] ∧
      (State.getDefaultRegion s m).1.clean = false ∧
      State.getDefaultRegion s (State.getDefaultRegion s m).1 = State.getDefaultRegion s m) ∧
    ((getVertex m s).defaultRegion = some r0 → State.getDefaultRegion s m = (m, r0)) ∧
    (m.machineDefaultRegion = none →
      getRegion (StateMachine.getDefaultRegion m).1 (StateMachine.getDefaultRegion m).2 =
        ⟨"default", RegionParent.machine, m.machineName ++ "." ++ "default", []⟩ ∧
      (StateMachine.getDefaultRegion m).1.machineDefaultRegion = some (StateMachine.getDefaultRegion m).2 ∧
      (StateMachine.getDefaultRegion m).1.machineRegions
        = m.machineRegions ++ [(StateMachine.getDefaultRegion m).2] ∧
      (StateMachine.getDefaultRegion m).1.clean = false ∧
      StateMachine.getDefaultRegion (StateMachine.getDefaultRegion m).1 = StateMachine.getDefaultRegion m) ∧
    (m.machineDefaultRegion = some r0 → StateMachine.getDefaultRegion m = (m, r0)) ∧
    (getVertex (newVertex nm cls (VertexParent.state s) m).1
      (newVertex nm cls (VertexParent.state s) m).2).parent = (State.getDefaultRegion s m).2 ∧
    (getVertex (newVertex nm cls VertexParent.machine m).1
      (newVertex nm cls VertexParent.machine m).2).parent = (StateMachine.getDefaultRegion m).2 := by
  refine ⟨?_, ?_, ?_, ?_, ?_, ?_⟩
  · intro h1
    have hv := State.getDefaultRegion_first_vertex m s hs h1
    have hsnd := State.getDefaultRegion_first_snd m s h1
    refine ⟨?_, ?_, ?_, State.getDefaultRegion_first_clean m s h1, ?_⟩
    · exact State.getDefaultRegion_first_region m s h1
    · rw [hv, hsnd]
    · rw [hv, hsnd]
    · have hd : (getVertex (State.getDefaultRegion s m).1 s).defaultRegion
          = some (State.getDefaultRegion s m).2 := by rw [hv, hsnd]
      rw [State.getDefaultRegion_cached _ s _ hd]
  · intro h1
    exact State.getDefaultRegion_cached m s r0 h1
  · intro h1
    have hm := StateMachine.getDefaultRegion_first_machine m h1
    have hsnd := StateMachine.machineDefaultRegion_first_snd m h1
    refine ⟨StateMachine.machineDefaultRegion_first_region m h1, ?_, ?_, hm.2.2, ?_⟩
    · rw [hm.1, hsnd]
    · rw [hm.2.1, hsnd]
    · have hd : (StateMachine.getDefaultRegion m).1.machineDefaultRegion
          = some (StateMachine.getDefaultRegion m).2 := by rw [hm.1, hsnd]
      rw [StateMachine.machineDefaultRegion_cached _ _ hd]
  · intro h1
    exact StateMachine.machineDefaultRegion_cached m r0 h1
  · exact newVertex_state_parent nm cls s m
  · exact newVertex_machine_parent nm cls m

/-- Witness for claim C10 on sampleModel1: vertex 0 is a state with no
default region yet, so the first call allocates region 1 named default, and
on the machine side the recorded default region 0 is returned untouched. -/
theorem getDefaultRegion_lazy_idempotent_witness :
    getRegion (State.getDefaultRegion 0 sampleModel1).1 (State.getDefaultRegion 0 sampleModel1).2 =
      ⟨"default", RegionParent.state 0, (getVertex sampleModel1 0).qualifiedName ++ "." ++ "default", []⟩ ∧
    (State.getDefaultRegion 0 sampleModel1).1.clean = false ∧
    State.getDefaultRegion 0 (State.getDefaultRegion 0 sampleModel1).1
      = State.getDefaultRegion 0 sampleModel1 ∧
    StateMachine.getDefaultRegion sampleModel1 = (sampleModel1, 0) ∧
    (getVertex (newVertex "t" VertexClass.state (VertexParent.state 0) sampleModel1).1
      (newVertex "t" VertexClass.state (VertexParent.state 0) sampleModel1).2).parent
        = (State.getDefaultRegion 0 sampleModel1).2 := by
  have h := getDefaultRegion_lazy_idempotent sampleModel1 0 0 "t" VertexClass.state (by decide)
  have hb := h.1 (by decide)
  exact ⟨hb.1, hb.2.2.2.1, hb.2.2.2.2, h.2.2.2.1 (by decide), h.2.2.2.2.1⟩

end StateJS
